import Mathlib

/-!
Shallow embedding of the E-Eco scheduler of `src/Scheduler.cpp` /
`src/Scheduler.hpp` (CloudSim).

Modelling conventions:
* Handles (`MachineId_t`, `VMId_t`, `TaskId_t`) are `Nat`.
* The simulator is modelled as a read-only oracle `Env` answering the
  query primitives (`VM_GetInfo`, `Machine_GetInfo`, `Machine_GetCPUType`,
  `RequiredCPUType`, `RequiredVMType`, `RequiredSLA`, `IsSLAViolation`).
* Mutating primitives (`VM_Create`, `VM_Attach`, `VM_AddTask`, `VM_Migrate`,
  `Machine_SetState`, `Machine_SetCorePerformance`, `VM_Shutdown`) are
  recorded as an emitted `Command` list; each scheduler entry point is a
  function `Env → SchedState → args → SchedState × List Command`.
* `VM_Create` returns a fresh handle; the handle chosen by the simulator is
  passed in as an explicit `fresh` argument where a function creates a VM
  (in `Scheduler::Init`, which creates VMs in a loop, the i-th created VM
  gets handle i).
* `SimOutput` logging is dropped, except in `TaskComplete` where the
  conditional log line is the function's only effect and is recorded as
  `Command.log`.
* The happy path is modelled: no upward primitive throws (`catch` blocks in
  the source are unreachable then).
* `migrating_vms : unordered_set<VMId_t>` is a `Finset Nat`.
-/

namespace CloudSim

/-- CPU architectures (`CPUType_t` of the simulator interface). -/
inductive CPUType
  | ARM | POWER | RISCV | X86
deriving DecidableEq, Repr

/-- VM flavors (`VMType_t`). -/
inductive VMType
  | AIX | LINUX | LINUX_RT | WIN
deriving DecidableEq, Repr

/-- SLA classes (`SLAType_t`). -/
inductive SLAClass
  | SLA0 | SLA1 | SLA2 | SLA3
deriving DecidableEq, Repr

/-- Task priorities (`Priority_t`). -/
inductive Priority
  | HIGH_PRIORITY | MID_PRIORITY | LOW_PRIORITY
deriving DecidableEq, Repr

/-- Machine S-states (`MachineState_t`). -/
inductive MachineState
  | S0 | S1 | S2 | S3 | S4 | S5
deriving DecidableEq, Repr

/-- Core P-states (`CPUPerformance_t`). -/
inductive CPUPerformance
  | P0 | P1 | P2 | P3
deriving DecidableEq, Repr

/-- Result of `VM_GetInfo`: the fields `Scheduler.cpp` reads.
`active_tasks` is the size of the `active_tasks` vector. -/
structure VMInfo where
  cpu : CPUType
  vm_type : VMType
  machine_id : Nat
  active_tasks : Nat
deriving DecidableEq, Repr

/-- Result of `Machine_GetInfo`: the fields `Scheduler.cpp` reads. -/
structure MachineInfo where
  cpu : CPUType
  memory_size : Nat
  memory_used : Nat
  active_tasks : Nat
  num_cpus : Nat
deriving DecidableEq, Repr

/-- Read-only simulator oracle: the query primitives the scheduler calls. -/
structure Env where
  vmInfo : Nat → VMInfo          -- VM_GetInfo
  machInfo : Nat → MachineInfo   -- Machine_GetInfo
  machCPU : Nat → CPUType        -- Machine_GetCPUType
  taskCPU : Nat → CPUType        -- RequiredCPUType
  taskVM : Nat → VMType          -- RequiredVMType
  taskSLA : Nat → SLAClass       -- RequiredSLA
  slaViolation : Nat → Bool      -- IsSLAViolation

/-- The scheduler's private state (fields of `class Scheduler`). -/
structure SchedState where
  vms : List Nat                 -- vector<VMId_t> vms
  migrating : Finset Nat         -- unordered_set<VMId_t> migrating_vms
  running_tier : List Nat        -- vector<MachineId_t> running_tier
  standby_tier : List Nat        -- vector<MachineId_t> standby_tier
  off_tier : List Nat            -- vector<MachineId_t> off_tier
deriving DecidableEq

/-- Commands the scheduler issues to the simulator. -/
inductive Command
  | createVM (vm : Nat) (vt : VMType) (cpu : CPUType)
  | attach (vm machine : Nat)
  | addTask (vm task : Nat) (prio : Priority)
  | migrate (vm dest : Nat)
  | setState (machine : Nat) (s : MachineState)
  | setCorePerf (machine core : Nat) (p : CPUPerformance)
  | shutdownVM (vm : Nat)
  | log
deriving DecidableEq, Repr

/-- `const unsigned MAX_RUNNING = 12` -/
def MAX_RUNNING : Nat := 12

/-- `const unsigned MIN_RUNNING = 8` -/
def MIN_RUNNING : Nat := 8

/-- `const unsigned STANDBY_SIZE = 4` -/
def STANDBY_SIZE : Nat := 4

/-- `UINT_MAX`, the initial value of `lowest_tasks` in `Scheduler::NewTask`. -/
def UINT_MAX : Nat := 4294967295

/-- `Scheduler::MigrationComplete` (Scheduler.cpp:100-103): erase the VM from
the migrating set; nothing else, no primitive issued. -/
def migrationComplete (s : SchedState) (vm_id : Nat) : SchedState × List Command :=
  ({ s with migrating := s.migrating.erase vm_id }, [])

/-- `Scheduler::TaskComplete` (Scheduler.cpp:289-298): check the SLA and log
when violated; no state change, no primitive issued. -/
def taskComplete (env : Env) (s : SchedState) (task_id : Nat) :
    SchedState × List Command :=
  (s, if env.slaViolation task_id then [Command.log] else [])

/-- `StateChangeComplete` (Scheduler.cpp:431-433): a log line only; it touches
no scheduler state and issues no primitive. -/
def stateChangeComplete (s : SchedState) (machine_id : Nat) :
    SchedState × List Command :=
  (s, [])

/-- `Scheduler::Shutdown` (Scheduler.cpp:358-374): iterate a copy of `vms`,
skip migrating VMs, issue `VM_Shutdown` for the rest; scheduler fields are
not modified. -/
def shutdown (s : SchedState) : SchedState × List Command :=
  (s, (s.vms.filter (fun v => decide (v ∉ s.migrating))).map Command.shutdownVM)

/-- VM flavor chosen for an initial VM in `Scheduler::Init`
(Scheduler.cpp:45-48): `AIX` when the host CPU is `POWER`, `LINUX` otherwise. -/
def vmTypeFor (cpu : CPUType) : VMType :=
  if cpu = CPUType.POWER then VMType.AIX else VMType.LINUX

/-- `Scheduler::Init` (Scheduler.cpp:17-98) on a fleet of `total` machines
(`Machine_GetTotal() = total`), happy path (no primitive throws).

* Loop 1 (lines 33-58): machines `0 .. min total MAX_RUNNING - 1` go to
  `running_tier`; for each, a VM is created (the i-th `VM_Create` returns
  handle `i`) and attached; no `Machine_SetState` is issued for these hosts.
* Loop 2 (lines 61-75): machines `active .. min total (active+STANDBY_SIZE) - 1`
  go to `standby_tier` with `Machine_SetState(·, S1)`.
* Loop 3 (lines 78-92): all remaining machines go to `off_tier` with
  `Machine_SetState(·, S5)`. -/
def init (env : Env) (total : Nat) : SchedState × List Command :=
  let active := min total MAX_RUNNING
  let running := List.range active
  let sbCount := min total (active + STANDBY_SIZE) - active
  let standby := List.range' active sbCount
  let offs := List.range' (active + sbCount) (total - (active + sbCount))
  let runCmds := running.flatMap (fun i =>
    [Command.createVM i (vmTypeFor (env.machCPU i)) (env.machCPU i),
     Command.attach i i])
  let sbCmds := standby.map (fun i => Command.setState i MachineState.S1)
  let offCmds := offs.map (fun i => Command.setState i MachineState.S5)
  ({ vms := running, migrating := ∅, running_tier := running,
     standby_tier := standby, off_tier := offs },
   runCmds ++ sbCmds ++ offCmds)

/-- `if (sla == SLA0) ... else if (sla == SLA1) ... else ...`
(Scheduler.cpp:121-128). -/
def prioFor (sla : SLAClass) : Priority :=
  if sla = SLAClass.SLA0 then Priority.HIGH_PRIORITY
  else if sla = SLAClass.SLA1 then Priority.MID_PRIORITY
  else Priority.LOW_PRIORITY

/-- Eligibility in the first placement loop of `Scheduler::NewTask`: the VM
is not in the migrating set (Scheduler.cpp:136) and its CPU and VM type
match the task's requirements (Scheduler.cpp:144). -/
def eligVM (env : Env) (cpu : CPUType) (vt : VMType) (mig : Finset Nat)
    (v : Nat) : Prop :=
  v ∉ mig ∧ (env.vmInfo v).cpu = cpu ∧ (env.vmInfo v).vm_type = vt

instance (env : Env) (cpu : CPUType) (vt : VMType) (mig : Finset Nat)
    (v : Nat) : Decidable (eligVM env cpu vt mig v) :=
  inferInstanceAs (Decidable (_ ∧ _ ∧ _))

/-- One iteration of the first placement loop of `Scheduler::NewTask`
(Scheduler.cpp:134-152). The accumulator is `(best_vm, lowest_tasks)`;
`best_vm = UINT_MAX` (no VM yet) is modelled as `none`. A VM is skipped if
it is migrating, and becomes the new best if its CPU and VM type match and
its active-task count is strictly below `lowest_tasks`. -/
def scanStep (env : Env) (cpu : CPUType) (vt : VMType) (mig : Finset Nat)
    (acc : Option Nat × Nat) (vm_id : Nat) : Option Nat × Nat :=
  if eligVM env cpu vt mig vm_id ∧ (env.vmInfo vm_id).active_tasks < acc.2 then
    (some vm_id, (env.vmInfo vm_id).active_tasks)
  else acc

/-- The whole first placement loop: fold `scanStep` over `vms` starting from
`(UINT_MAX, UINT_MAX)`. -/
def firstPass (env : Env) (cpu : CPUType) (vt : VMType) (mig : Finset Nat)
    (l : List Nat) : Option Nat × Nat :=
  l.foldl (scanStep env cpu vt mig) (none, UINT_MAX)

/-- The second placement loop (Scheduler.cpp:166-183): the first
non-migrating VM whose CPU matches receives the task. -/
def secondPass (env : Env) (cpu : CPUType) (mig : Finset Nat)
    (l : List Nat) : Option Nat :=
  l.find? (fun vm_id => decide (vm_id ∉ mig ∧ (env.vmInfo vm_id).cpu = cpu))

/-- The standby scan (Scheduler.cpp:189-238): the first standby machine whose
CPU type matches is activated. -/
def standbyPick (env : Env) (cpu : CPUType) (l : List Nat) : Option Nat :=
  l.find? (fun machine_id => decide (env.machCPU machine_id = cpu))

/-- `Scheduler::NewTask` (Scheduler.cpp:105-258), happy path. `fresh` is the
handle `VM_Create` returns if the standby-activation path creates a VM.

1. First pass: least-loaded VM matching CPU and VM type (strict `<`, scan
   in `vms` order).
2. Second pass: first VM matching CPU only.
3. Standby activation: first standby machine with matching CPU; move it to
   `running_tier`, request S0, create/attach a fresh VM, add the task; then
   refill standby from `off_tier` when `|standby| < STANDBY_SIZE/2`.
4. Emergency pass: first non-migrating VM, `HIGH_PRIORITY`.
5. Otherwise: placement failure (no state change, no command). -/
def newTask (env : Env) (s : SchedState) (task_id : Nat) (fresh : Nat) :
    SchedState × List Command :=
  let cpu := env.taskCPU task_id
  let vt := env.taskVM task_id
  let prio := prioFor (env.taskSLA task_id)
  match (firstPass env cpu vt s.migrating s.vms).1 with
  | some v => (s, [Command.addTask v task_id prio])
  | none =>
    match secondPass env cpu s.migrating s.vms with
    | some v => (s, [Command.addTask v task_id prio])
    | none =>
      match standbyPick env cpu s.standby_tier with
      | some m =>
        let standby' := s.standby_tier.erase m
        let base : SchedState :=
          { s with standby_tier := standby',
                   running_tier := s.running_tier ++ [m],
                   vms := s.vms ++ [fresh] }
        let cmds := [Command.setState m MachineState.S0,
                     Command.createVM fresh vt cpu,
                     Command.attach fresh m,
                     Command.addTask fresh task_id prio]
        if standby'.length < STANDBY_SIZE / 2 then
          match s.off_tier with
          | off_id :: rest =>
            ({ base with off_tier := rest,
                         standby_tier := standby' ++ [off_id] },
             cmds ++ [Command.setState off_id MachineState.S1])
          | [] => (base, cmds)
        else (base, cmds)
      | none =>
        match s.vms.find? (fun v => decide (v ∉ s.migrating)) with
        | some v => (s, [Command.addTask v task_id Priority.HIGH_PRIORITY])
        | none => (s, [])

/-- The P-state chosen in `Scheduler::PeriodicCheck` (Scheduler.cpp:264-277).
The source computes `utilization = active_tasks / num_cpus` in `double` and
compares with 0.7 / 0.4 / 0.2; these small-integer ratios are modelled
exactly on rationals: `a / n > 7/10  ↔  10 * a > 7 * n`, etc. -/
def pstateFor (tasks cpus : Nat) : CPUPerformance :=
  if 10 * tasks > 7 * cpus then CPUPerformance.P0
  else if 10 * tasks > 4 * cpus then CPUPerformance.P1
  else if 10 * tasks > 2 * cpus then CPUPerformance.P2
  else CPUPerformance.P3

/-- `Scheduler::PeriodicCheck` (Scheduler.cpp:260-287): for every running
machine, apply the utilization-derived P-state to each of its cores. No
scheduler state is touched and no other primitive is issued. -/
def periodicCheck (env : Env) (s : SchedState) : SchedState × List Command :=
  (s, s.running_tier.flatMap (fun machine_id =>
    (List.range (env.machInfo machine_id).num_cpus).map (fun i =>
      Command.setCorePerf machine_id i
        (pstateFor (env.machInfo machine_id).active_tasks
          (env.machInfo machine_id).num_cpus))))

/-- The destination test of `Scheduler::HandleMemoryWarning`
(Scheduler.cpp:319-336): not the source machine, CPU matches the VM, and
`¬(memory_used > memory_size / 2)` (integer division). -/
def destOK (env : Env) (src : Nat) (vcpu : CPUType) (d : Nat) : Bool :=
  decide (d ≠ src ∧ (env.machInfo d).cpu = vcpu ∧
    ¬ ((env.machInfo d).memory_size / 2 < (env.machInfo d).memory_used))

/-- The outer loop of `Scheduler::HandleMemoryWarning` (Scheduler.cpp:304-353)
over a suffix of `vms`: skip migrating VMs and VMs not on the warned machine;
for an eligible VM, scan `running_tier` for the first acceptable destination;
if none, move on to the next VM. Returns the first `(vm, dest)` pair found. -/
def findMigrationGo (env : Env) (s : SchedState) (machine_id : Nat) :
    List Nat → Option (Nat × Nat)
  | [] => none
  | v :: rest =>
    if v ∉ s.migrating ∧ (env.vmInfo v).machine_id = machine_id then
      match s.running_tier.find? (destOK env machine_id (env.vmInfo v).cpu) with
      | some d => some (v, d)
      | none => findMigrationGo env s machine_id rest
    else findMigrationGo env s machine_id rest

/-- The migration pair `Scheduler::HandleMemoryWarning` selects, if any. -/
def findMigration (env : Env) (s : SchedState) (machine_id : Nat) :
    Option (Nat × Nat) :=
  findMigrationGo env s machine_id s.vms

/-- `Scheduler::HandleMemoryWarning` (Scheduler.cpp:300-356): issue
`VM_Migrate` for the first eligible (vm, dest) pair and insert the VM into
the migrating set; at most one migration per invocation. -/
def handleMemoryWarning (env : Env) (s : SchedState) (machine_id : Nat) :
    SchedState × List Command :=
  match findMigration env s machine_id with
  | some (v, d) =>
    ({ s with migrating := insert v s.migrating }, [Command.migrate v d])
  | none => (s, [])

/-! ## Claim C9: `MigrationComplete` -/

/-- C9: `MigrationComplete(vm)` removes `vm` from the Migrating set and
changes no other scheduler state (vms list and tier lists unchanged, no
simulator primitive issued); when `vm` is not in the Migrating set the call
is a no-op, so applying it twice equals applying it once. -/
theorem migrationComplete_spec (s : SchedState) (vm_id : Nat) :
    (migrationComplete s vm_id).1.migrating = s.migrating.erase vm_id ∧
    (migrationComplete s vm_id).1.vms = s.vms ∧
    (migrationComplete s vm_id).1.running_tier = s.running_tier ∧
    (migrationComplete s vm_id).1.standby_tier = s.standby_tier ∧
    (migrationComplete s vm_id).1.off_tier = s.off_tier ∧
    (migrationComplete s vm_id).2 = [] ∧
    (vm_id ∉ s.migrating → migrationComplete s vm_id = (s, [])) ∧
    migrationComplete (migrationComplete s vm_id).1 vm_id =
      migrationComplete s vm_id := by
  refine ⟨rfl, rfl, rfl, rfl, rfl, rfl, ?_, ?_⟩
  · intro h
    simp [migrationComplete, Finset.erase_eq_of_not_mem h]
  · simp [migrationComplete, Finset.erase_idem]

/-- Witness for C9 at a concrete state: `3 ∉ {1, 2}`. -/
theorem migrationComplete_spec_witness :
    (migrationComplete ⟨[0], {1, 2}, [4], [5], [6]⟩ 3).1.migrating =
      (SchedState.migrating ⟨[0], {1, 2}, [4], [5], [6]⟩).erase 3 ∧
    (migrationComplete ⟨[0], {1, 2}, [4], [5], [6]⟩ 3).1.vms =
      SchedState.vms ⟨[0], {1, 2}, [4], [5], [6]⟩ ∧
    (migrationComplete ⟨[0], {1, 2}, [4], [5], [6]⟩ 3).1.running_tier =
      SchedState.running_tier ⟨[0], {1, 2}, [4], [5], [6]⟩ ∧
    (migrationComplete ⟨[0], {1, 2}, [4], [5], [6]⟩ 3).1.standby_tier =
      SchedState.standby_tier ⟨[0], {1, 2}, [4], [5], [6]⟩ ∧
    (migrationComplete ⟨[0], {1, 2}, [4], [5], [6]⟩ 3).1.off_tier =
      SchedState.off_tier ⟨[0], {1, 2}, [4], [5], [6]⟩ ∧
    (migrationComplete ⟨[0], {1, 2}, [4], [5], [6]⟩ 3).2 = [] ∧
    (3 ∉ SchedState.migrating ⟨[0], {1, 2}, [4], [5], [6]⟩ →
      migrationComplete ⟨[0], {1, 2}, [4], [5], [6]⟩ 3 =
        (⟨[0], {1, 2}, [4], [5], [6]⟩, [])) ∧
    migrationComplete (migrationComplete ⟨[0], {1, 2}, [4], [5], [6]⟩ 3).1 3 =
      migrationComplete ⟨[0], {1, 2}, [4], [5], [6]⟩ 3 :=
  migrationComplete_spec ⟨[0], {1, 2}, [4], [5], [6]⟩ 3

/-! ## Claim C10: `TaskComplete` frame -/

/-- C10: for every task handle, `TaskComplete` leaves all scheduler state
unchanged and issues no placement, migration, or machine-state command; its
only observable effect is the log line, emitted exactly when the completed
task is an SLA violation. -/
theorem taskComplete_frame (env : Env) (s : SchedState) (task_id : Nat) :
    (taskComplete env s task_id).1 = s ∧
    (∀ c ∈ (taskComplete env s task_id).2, c = Command.log) ∧
    (Command.log ∈ (taskComplete env s task_id).2 ↔
      env.slaViolation task_id = true) := by
  refine ⟨rfl, ?_, ?_⟩ <;> by_cases h : env.slaViolation task_id <;>
    simp [taskComplete, h]

/-- Witness for C10 at a concrete oracle and state. -/
theorem taskComplete_frame_witness :
    (taskComplete ⟨fun _ => ⟨CPUType.X86, VMType.LINUX, 0, 0⟩,
        fun _ => ⟨CPUType.X86, 4, 0, 0, 1⟩, fun _ => CPUType.X86,
        fun _ => CPUType.X86, fun _ => VMType.LINUX, fun _ => SLAClass.SLA0,
        fun _ => true⟩ ⟨[0], {1}, [2], [3], [4]⟩ 0).1 = ⟨[0], {1}, [2], [3], [4]⟩ ∧
    (∀ c ∈ (taskComplete ⟨fun _ => ⟨CPUType.X86, VMType.LINUX, 0, 0⟩,
        fun _ => ⟨CPUType.X86, 4, 0, 0, 1⟩, fun _ => CPUType.X86,
        fun _ => CPUType.X86, fun _ => VMType.LINUX, fun _ => SLAClass.SLA0,
        fun _ => true⟩ ⟨[0], {1}, [2], [3], [4]⟩ 0).2, c = Command.log) ∧
    (Command.log ∈ (taskComplete ⟨fun _ => ⟨CPUType.X86, VMType.LINUX, 0, 0⟩,
        fun _ => ⟨CPUType.X86, 4, 0, 0, 1⟩, fun _ => CPUType.X86,
        fun _ => CPUType.X86, fun _ => VMType.LINUX, fun _ => SLAClass.SLA0,
        fun _ => true⟩ ⟨[0], {1}, [2], [3], [4]⟩ 0).2 ↔
      Env.slaViolation ⟨fun _ => ⟨CPUType.X86, VMType.LINUX, 0, 0⟩,
        fun _ => ⟨CPUType.X86, 4, 0, 0, 1⟩, fun _ => CPUType.X86,
        fun _ => CPUType.X86, fun _ => VMType.LINUX, fun _ => SLAClass.SLA0,
        fun _ => true⟩ 0 = true) :=
  taskComplete_frame _ _ 0

/-! ## Claim C1: no global migration throttle -/

/-- Oracle for the C1 counterexample: every VM sits on machine 7 with the
X86 architecture; machine 3 is an acceptable destination. -/
def envC1 : Env where
  vmInfo := fun _ => ⟨CPUType.X86, VMType.LINUX, 7, 0⟩
  machInfo := fun _ => ⟨CPUType.X86, 8, 0, 0, 1⟩
  machCPU := fun _ => CPUType.X86
  taskCPU := fun _ => CPUType.X86
  taskVM := fun _ => VMType.LINUX
  taskSLA := fun _ => SLAClass.SLA0
  slaViolation := fun _ => false

/-- State for the C1 counterexample: two in-flight migrations already. -/
def sC1 : SchedState where
  vms := [0]
  migrating := {10, 11}
  running_tier := [7, 3]
  standby_tier := []
  off_tier := []

/-- C1 counterexample: with `|Migrating| = 2` the memory-warning handler does
NOT decline: it issues `VM_Migrate(0, 3)` and inserts VM 0, leaving three VM
handles in the Migrating set. -/
theorem handleMemoryWarning_throttle_cex :
    sC1.migrating.card = 2 ∧
    (handleMemoryWarning envC1 sC1 7).2 = [Command.migrate 0 3] ∧
    (handleMemoryWarning envC1 sC1 7).1.migrating.card = 3 := by decide

/-- C1 amended: the handler has no global throttle on the size of the
Migrating set (it only skips VMs that are themselves migrating); per
invocation it issues at most one `VM_Migrate` and inserts at most one
handle, so `|Migrating|` grows by at most one. -/
theorem handleMemoryWarning_no_throttle (env : Env) (s : SchedState)
    (machine_id : Nat) :
    (handleMemoryWarning env s machine_id).2.length ≤ 1 ∧
    (handleMemoryWarning env s machine_id).1.migrating.card ≤
      s.migrating.card + 1 ∧
    (∀ v d, Command.migrate v d ∈ (handleMemoryWarning env s machine_id).2 →
      (handleMemoryWarning env s machine_id).1.migrating =
        insert v s.migrating) := by
  rcases h : findMigration env s machine_id with _ | ⟨v, d⟩
  · simp [handleMemoryWarning, h]
  · refine ⟨?_, ?_, ?_⟩
    · simp [handleMemoryWarning, h]
    · simpa [handleMemoryWarning, h] using Finset.card_insert_le v s.migrating
    · intro v' d' hc
      simp only [handleMemoryWarning, h, List.mem_singleton] at hc ⊢
      cases hc
      rfl

/-- Witness for C1's amended theorem at a concrete input. -/
theorem handleMemoryWarning_no_throttle_witness :
    (handleMemoryWarning envC1 sC1 7).2.length ≤ 1 ∧
    (handleMemoryWarning envC1 sC1 7).1.migrating.card ≤
      sC1.migrating.card + 1 ∧
    (∀ v d, Command.migrate v d ∈ (handleMemoryWarning envC1 sC1 7).2 →
      (handleMemoryWarning envC1 sC1 7).1.migrating =
        insert v sC1.migrating) :=
  handleMemoryWarning_no_throttle envC1 sC1 7

/-! ## Claim C3: `PeriodicCheck` never demotes -/

/-- Oracle for the C3 counterexample: every running machine is idle. -/
def envC3 : Env where
  vmInfo := fun _ => ⟨CPUType.X86, VMType.LINUX, 0, 0⟩
  machInfo := fun _ => ⟨CPUType.X86, 8, 0, 0, 1⟩
  machCPU := fun _ => CPUType.X86
  taskCPU := fun _ => CPUType.X86
  taskVM := fun _ => VMType.LINUX
  taskSLA := fun _ => SLAClass.SLA0
  slaViolation := fun _ => false

/-- State for the C3 counterexample: nine running hosts, more than
`MIN_RUNNING = 8`; host 0 has zero active tasks. -/
def sC3 : SchedState where
  vms := []
  migrating := ∅
  running_tier := [0, 1, 2, 3, 4, 5, 6, 7, 8]
  standby_tier := []
  off_tier := []

/-- C3 counterexample: host 0 is idle and `|running| > MIN_RUNNING`, yet
`PeriodicCheck` neither requests S5 for it nor moves it out of the running
tier: the scheduler state is unchanged and no `Machine_SetState` is issued. -/
theorem periodicCheck_demote_cex :
    MIN_RUNNING < sC3.running_tier.length ∧
    0 ∈ sC3.running_tier ∧
    (envC3.machInfo 0).active_tasks = 0 ∧
    (periodicCheck envC3 sC3).1 = sC3 ∧
    Command.setState 0 MachineState.S5 ∉ (periodicCheck envC3 sC3).2 := by
  decide

/-- C3 amended: `PeriodicCheck` only applies utilization-derived P-states to
the cores of running-tier hosts; it changes no scheduler state (in
particular it never moves a host between tiers) and every command it issues
is a `Machine_SetCorePerformance`. -/
theorem periodicCheck_pstates_only (env : Env) (s : SchedState) :
    (periodicCheck env s).1 = s ∧
    ∀ c ∈ (periodicCheck env s).2, ∃ m i p, c = Command.setCorePerf m i p := by
  refine ⟨rfl, ?_⟩
  intro c hc
  simp only [periodicCheck, List.mem_flatMap, List.mem_map, List.mem_range] at hc
  obtain ⟨m, _, i, _, rfl⟩ := hc
  exact ⟨m, i, _, rfl⟩

/-- Witness for C3's amended theorem at a concrete input. -/
theorem periodicCheck_pstates_only_witness :
    (periodicCheck envC3 sC3).1 = sC3 ∧
    ∀ c ∈ (periodicCheck envC3 sC3).2, ∃ m i p, c = Command.setCorePerf m i p :=
  periodicCheck_pstates_only envC3 sC3

/-! ## Claim C2: no pending-wake map -/

/-- Oracle for C2: no VMs exist; standby machine 5 has the required CPU. -/
def envC2 : Env where
  vmInfo := fun _ => ⟨CPUType.X86, VMType.LINUX, 0, 0⟩
  machInfo := fun _ => ⟨CPUType.X86, 8, 0, 0, 1⟩
  machCPU := fun m => if m = 5 then CPUType.X86 else CPUType.ARM
  taskCPU := fun _ => CPUType.X86
  taskVM := fun _ => VMType.LINUX
  taskSLA := fun _ => SLAClass.SLA2
  slaViolation := fun _ => false

/-- State for C2: empty VM registry, machine 5 in standby, machine 9 off. -/
def sC2 : SchedState where
  vms := []
  migrating := ∅
  running_tier := [0]
  standby_tier := [5]
  off_tier := [9]

/-- C2 counterexample: when a task is placed on standby host 5 (whose S0
transition is requested in the same call), `NewTask` immediately creates VM
20 and issues `VM_AddTask` for it in the very same invocation — before any
`StateChangeComplete` can fire — and `StateChangeComplete` itself drains
nothing: it returns the state unchanged with no command. There is no
pending-wake map. -/
theorem pendingWake_cex :
    (newTask envC2 sC2 0 20).2 =
      [Command.setState 5 MachineState.S0,
       Command.createVM 20 VMType.LINUX CPUType.X86,
       Command.attach 20 5,
       Command.addTask 20 0 Priority.LOW_PRIORITY,
       Command.setState 9 MachineState.S1] ∧
    stateChangeComplete (newTask envC2 sC2 0 20).1 5 =
      ((newTask envC2 sC2 0 20).1, []) := by decide

/-- C2 amended: a task that triggers standby activation is attached to the
freshly created VM immediately, inside the same `NewTask` invocation that
requests S0; `StateChangeComplete` changes no scheduler state and issues no
command (there is no pending-wake map to drain). -/
theorem newTask_standby_immediate (env : Env) (s : SchedState)
    (task_id fresh m : Nat)
    (h1 : (firstPass env (env.taskCPU task_id) (env.taskVM task_id)
      s.migrating s.vms).1 = none)
    (h2 : secondPass env (env.taskCPU task_id) s.migrating s.vms = none)
    (h3 : standbyPick env (env.taskCPU task_id) s.standby_tier = some m) :
    Command.setState m MachineState.S0 ∈ (newTask env s task_id fresh).2 ∧
    Command.addTask fresh task_id (prioFor (env.taskSLA task_id)) ∈
      (newTask env s task_id fresh).2 ∧
    fresh ∈ (newTask env s task_id fresh).1.vms ∧
    (∀ s2 mid, stateChangeComplete s2 mid = (s2, [])) := by
  simp only [newTask, h1, h2, h3]
  split
  · split <;> simp [stateChangeComplete]
  · simp [stateChangeComplete]

/-- Witness for C2's amended theorem at a concrete input. -/
theorem newTask_standby_immediate_witness :
    Command.setState 5 MachineState.S0 ∈ (newTask envC2 sC2 0 20).2 ∧
    Command.addTask 20 0 (prioFor (envC2.taskSLA 0)) ∈
      (newTask envC2 sC2 0 20).2 ∧
    20 ∈ (newTask envC2 sC2 0 20).1.vms ∧
    (∀ s2 mid, stateChangeComplete s2 mid = (s2, [])) :=
  newTask_standby_immediate envC2 sC2 0 20 5 (by decide) (by decide) (by decide)

/-! ## Claim C4: the second placement pass ignores load -/

/-- Oracle for C4: VM 0 (load 5) and VM 1 (load 0), both X86+LINUX; the task
requires flavor WIN, so the first pass fails and the second pass runs. -/
def envC4 : Env where
  vmInfo := fun v =>
    if v = 0 then ⟨CPUType.X86, VMType.LINUX, 0, 5⟩
    else ⟨CPUType.X86, VMType.LINUX, 1, 0⟩
  machInfo := fun _ => ⟨CPUType.X86, 8, 0, 0, 1⟩
  machCPU := fun _ => CPUType.X86
  taskCPU := fun _ => CPUType.X86
  taskVM := fun _ => VMType.WIN
  taskSLA := fun _ => SLAClass.SLA2
  slaViolation := fun _ => false

/-- State for C4: two registered VMs, nothing migrating. -/
def sC4 : SchedState where
  vms := [0, 1]
  migrating := ∅
  running_tier := []
  standby_tier := []
  off_tier := []

/-- C4 counterexample: in the second pass the task goes to VM 0 (5 active
tasks) although VM 1 also matches the architecture, is not migrating, and
has 0 active tasks — the code takes the first architecture match, not the
least-loaded one. -/
theorem secondPass_load_cex :
    (newTask envC4 sC4 0 99).2 = [Command.addTask 0 0 Priority.LOW_PRIORITY] ∧
    1 ∈ sC4.vms ∧ 1 ∉ sC4.migrating ∧
    (envC4.vmInfo 1).cpu = envC4.taskCPU 0 ∧
    (envC4.vmInfo 1).active_tasks = 0 ∧
    (envC4.vmInfo 0).active_tasks = 5 := by decide

/-- C4 amended: when the first pass finds no VM, the second pass adds the
task to the *first* non-migrating VM in registry order whose CPU
architecture matches — every VM scanned before it is migrating or
architecture-incompatible; load is not consulted. -/
theorem newTask_secondPass_first (env : Env) (s : SchedState)
    (task_id fresh v : Nat)
    (h1 : (firstPass env (env.taskCPU task_id) (env.taskVM task_id)
      s.migrating s.vms).1 = none)
    (h2 : secondPass env (env.taskCPU task_id) s.migrating s.vms = some v) :
    newTask env s task_id fresh =
      (s, [Command.addTask v task_id (prioFor (env.taskSLA task_id))]) ∧
    v ∈ s.vms ∧ v ∉ s.migrating ∧ (env.vmInfo v).cpu = env.taskCPU task_id ∧
    ∃ l₁ l₂, s.vms = l₁ ++ v :: l₂ ∧
      ∀ w ∈ l₁, ¬(w ∉ s.migrating ∧ (env.vmInfo w).cpu = env.taskCPU task_id) := by
  have h2' := h2
  unfold secondPass at h2'
  rw [List.find?_eq_some] at h2'
  obtain ⟨hpv, l₁, l₂, heq, hall⟩ := h2'
  have hv := of_decide_eq_true hpv
  refine ⟨by simp only [newTask, h1, h2], ?_, hv.1, hv.2, l₁, l₂, heq, ?_⟩
  · rw [heq]
    exact List.mem_append_right _ (List.mem_cons_self _ _)
  · intro w hw
    have h' := hall w hw
    simp only [Bool.not_eq_true'] at h'
    exact of_decide_eq_false h'

/-- Witness for C4's amended theorem at a concrete input. -/
theorem newTask_secondPass_first_witness :
    newTask envC4 sC4 0 99 =
      (sC4, [Command.addTask 0 0 (prioFor (envC4.taskSLA 0))]) ∧
    0 ∈ sC4.vms ∧ 0 ∉ sC4.migrating ∧
    (envC4.vmInfo 0).cpu = envC4.taskCPU 0 ∧
    ∃ l₁ l₂, sC4.vms = l₁ ++ 0 :: l₂ ∧
      ∀ w ∈ l₁, ¬(w ∉ sC4.migrating ∧ (envC4.vmInfo w).cpu = envC4.taskCPU 0) :=
  newTask_secondPass_first envC4 sC4 0 99 0 (by decide) (by decide)

/-! ## Claim C7: the memory-warning destination test -/

/-- The acceptance test of `destOK`, written out: the source rejects a
destination only when `memory_used > memory_size / 2`, so equality with
half the memory is accepted. -/
theorem destOK_iff (env : Env) (src : Nat) (c : CPUType) (e : Nat) :
    destOK env src c e = true ↔
      (e ≠ src ∧ (env.machInfo e).cpu = c ∧
       (env.machInfo e).memory_used ≤ (env.machInfo e).memory_size / 2) := by
  simp [destOK, Nat.not_lt]

/-- What a successful scan of `Scheduler::HandleMemoryWarning` guarantees:
the chosen VM is a non-migrating VM of the warned machine drawn from the
scanned list, and the destination is the result of the inner
`running_tier` scan. -/
theorem findMigrationGo_some (env : Env) (s : SchedState) (machine_id : Nat) :
    ∀ (l : List Nat) (v d : Nat),
      findMigrationGo env s machine_id l = some (v, d) →
      v ∈ l ∧ v ∉ s.migrating ∧ (env.vmInfo v).machine_id = machine_id ∧
      s.running_tier.find? (destOK env machine_id (env.vmInfo v).cpu) = some d := by
  intro l
  induction l with
  | nil =>
    intro v d h
    exact absurd h (by simp [findMigrationGo])
  | cons a rest ih =>
    intro v d h
    unfold findMigrationGo at h
    split at h
    · split at h
      · cases h
        next hc x hfind =>
          exact ⟨List.mem_cons_self _ _, hc.1, hc.2, hfind⟩
      · obtain ⟨hm, h2, h3, h4⟩ := ih v d h
        exact ⟨List.mem_cons_of_mem _ hm, h2, h3, h4⟩
    · obtain ⟨hm, h2, h3, h4⟩ := ih v d h
      exact ⟨List.mem_cons_of_mem _ hm, h2, h3, h4⟩

/-- Oracle for C7: machine 3 has exactly half of its memory in use
(`memory_used = 4 = 8 / 2`); the source machine 7 is full. -/
def envC7 : Env where
  vmInfo := fun _ => ⟨CPUType.X86, VMType.LINUX, 7, 0⟩
  machInfo := fun m =>
    if m = 3 then ⟨CPUType.X86, 8, 4, 0, 1⟩ else ⟨CPUType.X86, 8, 8, 0, 1⟩
  machCPU := fun _ => CPUType.X86
  taskCPU := fun _ => CPUType.X86
  taskVM := fun _ => VMType.LINUX
  taskSLA := fun _ => SLAClass.SLA0
  slaViolation := fun _ => false

/-- State for C7. -/
def sC7 : SchedState where
  vms := [0]
  migrating := ∅
  running_tier := [7, 3]
  standby_tier := []
  off_tier := []

/-- C7 counterexample: machine 3 has `memory_used = memory_size / 2`, which
is NOT strictly less than half, yet the handler migrates VM 0 to it — the
source test is `memory_used ≤ memory_size / 2`, not `<`. -/
theorem handleMemoryWarning_strict_cex :
    (envC7.machInfo 3).memory_used = (envC7.machInfo 3).memory_size / 2 ∧
    ¬((envC7.machInfo 3).memory_used < (envC7.machInfo 3).memory_size / 2) ∧
    (handleMemoryWarning envC7 sC7 7).2 = [Command.migrate 0 3] := by decide

/-- C7 amended: a destination is accepted iff it is not the source, its CPU
matches the migrating VM's, and `memory_used ≤ memory_size / 2` (note `≤`,
not `<`); the first host in running-tier order passing the test receives
the migration. -/
theorem handleMemoryWarning_dest (env : Env) (s : SchedState)
    (machine_id v d : Nat)
    (h : findMigration env s machine_id = some (v, d)) :
    (handleMemoryWarning env s machine_id).2 = [Command.migrate v d] ∧
    (handleMemoryWarning env s machine_id).1.migrating = insert v s.migrating ∧
    v ∈ s.vms ∧ v ∉ s.migrating ∧ (env.vmInfo v).machine_id = machine_id ∧
    (d ≠ machine_id ∧ (env.machInfo d).cpu = (env.vmInfo v).cpu ∧
      (env.machInfo d).memory_used ≤ (env.machInfo d).memory_size / 2) ∧
    (∃ r₁ r₂, s.running_tier = r₁ ++ d :: r₂ ∧
      ∀ e ∈ r₁, destOK env machine_id (env.vmInfo v).cpu e = false) ∧
    (∀ e, destOK env machine_id (env.vmInfo v).cpu e = true ↔
      (e ≠ machine_id ∧ (env.machInfo e).cpu = (env.vmInfo v).cpu ∧
       (env.machInfo e).memory_used ≤ (env.machInfo e).memory_size / 2)) := by
  obtain ⟨hmem, hnm, hmach, hfind⟩ :=
    findMigrationGo_some env s machine_id s.vms v d h
  have hdOK : destOK env machine_id (env.vmInfo v).cpu d = true :=
    List.find?_some hfind
  rw [List.find?_eq_some] at hfind
  obtain ⟨-, r₁, r₂, hsplit, hall⟩ := hfind
  refine ⟨by simp only [handleMemoryWarning, findMigration] at h ⊢; rw [h],
          by simp only [handleMemoryWarning, findMigration] at h ⊢; rw [h],
          hmem, hnm, hmach, (destOK_iff env machine_id _ d).mp hdOK,
          ⟨r₁, r₂, hsplit, ?_⟩, fun e => destOK_iff env machine_id _ e⟩
  intro e he
  have h' := hall e he
  simpa only [Bool.not_eq_true'] using h'

/-- Witness for C7's amended theorem at a concrete input. -/
theorem handleMemoryWarning_dest_witness :
    (handleMemoryWarning envC7 sC7 7).2 = [Command.migrate 0 3] ∧
    (handleMemoryWarning envC7 sC7 7).1.migrating = insert 0 sC7.migrating ∧
    0 ∈ sC7.vms ∧ 0 ∉ sC7.migrating ∧ (envC7.vmInfo 0).machine_id = 7 ∧
    (3 ≠ 7 ∧ (envC7.machInfo 3).cpu = (envC7.vmInfo 0).cpu ∧
      (envC7.machInfo 3).memory_used ≤ (envC7.machInfo 3).memory_size / 2) ∧
    (∃ r₁ r₂, sC7.running_tier = r₁ ++ 3 :: r₂ ∧
      ∀ e ∈ r₁, destOK envC7 7 (envC7.vmInfo 0).cpu e = false) ∧
    (∀ e, destOK envC7 7 (envC7.vmInfo 0).cpu e = true ↔
      (e ≠ 7 ∧ (envC7.machInfo e).cpu = (envC7.vmInfo 0).cpu ∧
       (envC7.machInfo e).memory_used ≤ (envC7.machInfo e).memory_size / 2)) :=
  handleMemoryWarning_dest envC7 sC7 7 0 3 (by decide)

/-! ## Claim C5: the first placement pass is least-loaded, first wins -/

/-- `scanStep` when the VM beats the current best. -/
theorem scanStep_pos (env : Env) (cpu : CPUType) (vt : VMType)
    (mig : Finset Nat) (acc : Option Nat × Nat) (v : Nat)
    (h : eligVM env cpu vt mig v ∧ (env.vmInfo v).active_tasks < acc.2) :
    scanStep env cpu vt mig acc v = (some v, (env.vmInfo v).active_tasks) := by
  unfold scanStep
  exact if_pos h

/-- `scanStep` when the VM does not beat the current best. -/
theorem scanStep_neg (env : Env) (cpu : CPUType) (vt : VMType)
    (mig : Finset Nat) (acc : Option Nat × Nat) (v : Nat)
    (h : ¬(eligVM env cpu vt mig v ∧ (env.vmInfo v).active_tasks < acc.2)) :
    scanStep env cpu vt mig acc v = acc := by
  unfold scanStep
  exact if_neg h

/-- Once `best_vm` is set it never becomes unset again. -/
theorem scan_stays_some (env : Env) (cpu : CPUType) (vt : VMType)
    (mig : Finset Nat) :
    ∀ (l : List Nat) (x n : Nat),
      ∃ y m, List.foldl (scanStep env cpu vt mig) (some x, n) l = (some y, m) := by
  intro l
  induction l with
  | nil => intro x n; exact ⟨x, n, rfl⟩
  | cons a rest ih =>
    intro x n
    rw [List.foldl_cons]
    by_cases hc : eligVM env cpu vt mig a ∧
        (env.vmInfo a).active_tasks < ((some x, n) : Option Nat × Nat).2
    · rw [scanStep_pos env cpu vt mig _ a hc]
      exact ih a _
    · rw [scanStep_neg env cpu vt mig _ a hc]
      exact ih x n

/-- Full characterisation of the first-pass fold: if it ends with
`best_vm = some v` then either the accumulator already held `v` and no
scanned eligible VM beat its bound, or `v` is an eligible VM of the list,
the final bound is its load, every eligible VM strictly before it has a
strictly larger load, and every eligible VM after it has a load at least as
large. -/
theorem scan_go (env : Env) (cpu : CPUType) (vt : VMType) (mig : Finset Nat) :
    ∀ (l : List Nat) (acc : Option Nat × Nat) (v : Nat),
      (List.foldl (scanStep env cpu vt mig) acc l).1 = some v →
      (acc.1 = some v ∧ (List.foldl (scanStep env cpu vt mig) acc l).2 = acc.2 ∧
        ∀ w ∈ l, eligVM env cpu vt mig w →
          acc.2 ≤ (env.vmInfo w).active_tasks) ∨
      (∃ l₁ l₂, l = l₁ ++ v :: l₂ ∧ eligVM env cpu vt mig v ∧
        (List.foldl (scanStep env cpu vt mig) acc l).2 =
          (env.vmInfo v).active_tasks ∧
        (env.vmInfo v).active_tasks < acc.2 ∧
        (∀ w ∈ l₁, eligVM env cpu vt mig w →
          (env.vmInfo v).active_tasks < (env.vmInfo w).active_tasks) ∧
        (∀ w ∈ l₂, eligVM env cpu vt mig w →
          (env.vmInfo v).active_tasks ≤ (env.vmInfo w).active_tasks)) := by
  intro l
  induction l with
  | nil =>
    intro acc v h
    exact Or.inl ⟨h, rfl, by simp⟩
  | cons a rest ih =>
    intro acc v h
    rw [List.foldl_cons] at h
    by_cases hc : eligVM env cpu vt mig a ∧ (env.vmInfo a).active_tasks < acc.2
    · rw [scanStep_pos env cpu vt mig acc a hc] at h
      rcases ih _ v h with ⟨h1, h2, h3⟩ | ⟨l₁, l₂, heq, helig, hfin, hlt, hpre, hsuf⟩
      · -- the head `a` itself is the final best
        have hav : a = v := by simpa using h1
        subst hav
        refine Or.inr ⟨[], rest, rfl, hc.1, ?_, hc.2, by simp, ?_⟩
        · rw [List.foldl_cons, scanStep_pos env cpu vt mig acc a hc]
          exact h2
        · intro w hw hel
          exact h3 w hw hel
      · -- the best `v` comes from `rest`
        refine Or.inr ⟨a :: l₁, l₂, by rw [heq, List.cons_append], helig, ?_,
          lt_trans hlt hc.2, ?_, hsuf⟩
        · rw [List.foldl_cons, scanStep_pos env cpu vt mig acc a hc]
          exact hfin
        · intro w hw hel
          rcases List.mem_cons.mp hw with rfl | hw'
          · exact hlt
          · exact hpre w hw' hel
    · rw [scanStep_neg env cpu vt mig acc a hc] at h
      rcases ih _ v h with ⟨h1, h2, h3⟩ | ⟨l₁, l₂, heq, helig, hfin, hlt, hpre, hsuf⟩
      · refine Or.inl ⟨h1, ?_, ?_⟩
        · rw [List.foldl_cons, scanStep_neg env cpu vt mig acc a hc]
          exact h2
        · intro w hw hel
          rcases List.mem_cons.mp hw with rfl | hw'
          · exact Nat.le_of_not_lt (fun hl => hc ⟨hel, hl⟩)
          · exact h3 w hw' hel
      · refine Or.inr ⟨a :: l₁, l₂, by rw [heq, List.cons_append], helig, ?_, hlt, ?_, hsuf⟩
        · rw [List.foldl_cons, scanStep_neg env cpu vt mig acc a hc]
          exact hfin
        · intro w hw hel
          rcases List.mem_cons.mp hw with rfl | hw'
          · exact lt_of_lt_of_le hlt (Nat.le_of_not_lt (fun hl => hc ⟨hel, hl⟩))
          · exact hpre w hw' hel

/-- C5: in the first placement pass, among all non-migrating VMs whose
(architecture, flavor) pair equals the task's requirements, the task is
added to the VM with the fewest active tasks; the scan proceeds in registry
insertion order and the comparison is strict, so the first-encountered
least-loaded VM wins: every eligible VM before the winner has a strictly
larger load, every eligible VM after it a load at least as large. -/
theorem newTask_firstPass_least_loaded (env : Env) (s : SchedState)
    (task_id fresh v : Nat)
    (h : (firstPass env (env.taskCPU task_id) (env.taskVM task_id)
      s.migrating s.vms).1 = some v) :
    newTask env s task_id fresh =
      (s, [Command.addTask v task_id (prioFor (env.taskSLA task_id))]) ∧
    v ∈ s.vms ∧
    eligVM env (env.taskCPU task_id) (env.taskVM task_id) s.migrating v ∧
    (∀ w ∈ s.vms,
      eligVM env (env.taskCPU task_id) (env.taskVM task_id) s.migrating w →
      (env.vmInfo v).active_tasks ≤ (env.vmInfo w).active_tasks) ∧
    ∃ l₁ l₂, s.vms = l₁ ++ v :: l₂ ∧
      (∀ w ∈ l₁,
        eligVM env (env.taskCPU task_id) (env.taskVM task_id) s.migrating w →
        (env.vmInfo v).active_tasks < (env.vmInfo w).active_tasks) ∧
      (∀ w ∈ l₂,
        eligVM env (env.taskCPU task_id) (env.taskVM task_id) s.migrating w →
        (env.vmInfo v).active_tasks ≤ (env.vmInfo w).active_tasks) := by
  have hg := scan_go env (env.taskCPU task_id) (env.taskVM task_id)
    s.migrating s.vms (none, UINT_MAX) v h
  rcases hg with ⟨h1, -, -⟩ | ⟨l₁, l₂, heq, helig, -, -, hpre, hsuf⟩
  · exact absurd h1 (by simp)
  · refine ⟨by simp only [newTask, h], ?_, helig, ?_, l₁, l₂, heq, hpre, hsuf⟩
    · rw [heq]
      exact List.mem_append_right _ (List.mem_cons_self _ _)
    · intro w hw hel
      rw [heq] at hw
      rcases List.mem_append.mp hw with hw' | hw'
      · exact le_of_lt (hpre w hw' hel)
      · rcases List.mem_cons.mp hw' with rfl | hw''
        · exact le_refl _
        · exact hsuf w hw'' hel

/-- Oracle for the C5 witness: VMs 0, 1, 2 all match (X86, LINUX) with
loads 3, 1, 1: the pass must pick VM 1, the first least-loaded one. -/
def envC5 : Env where
  vmInfo := fun v =>
    if v = 0 then ⟨CPUType.X86, VMType.LINUX, 0, 3⟩
    else ⟨CPUType.X86, VMType.LINUX, 1, 1⟩
  machInfo := fun _ => ⟨CPUType.X86, 8, 0, 0, 1⟩
  machCPU := fun _ => CPUType.X86
  taskCPU := fun _ => CPUType.X86
  taskVM := fun _ => VMType.LINUX
  taskSLA := fun _ => SLAClass.SLA1
  slaViolation := fun _ => false

/-- State for the C5 witness. -/
def sC5 : SchedState where
  vms := [0, 1, 2]
  migrating := ∅
  running_tier := [0, 1]
  standby_tier := []
  off_tier := []

/-- Witness for C5 at a concrete input: VM 1 (load 1) wins over VM 0
(load 3) and over the equally loaded later VM 2. -/
theorem newTask_firstPass_least_loaded_witness :
    newTask envC5 sC5 7 99 =
      (sC5, [Command.addTask 1 7 (prioFor (envC5.taskSLA 7))]) ∧
    1 ∈ sC5.vms ∧
    eligVM envC5 (envC5.taskCPU 7) (envC5.taskVM 7) sC5.migrating 1 ∧
    (∀ w ∈ sC5.vms,
      eligVM envC5 (envC5.taskCPU 7) (envC5.taskVM 7) sC5.migrating w →
      (envC5.vmInfo 1).active_tasks ≤ (envC5.vmInfo w).active_tasks) ∧
    ∃ l₁ l₂, sC5.vms = l₁ ++ 1 :: l₂ ∧
      (∀ w ∈ l₁,
        eligVM envC5 (envC5.taskCPU 7) (envC5.taskVM 7) sC5.migrating w →
        (envC5.vmInfo 1).active_tasks < (envC5.vmInfo w).active_tasks) ∧
      (∀ w ∈ l₂,
        eligVM envC5 (envC5.taskCPU 7) (envC5.taskVM 7) sC5.migrating w →
        (envC5.vmInfo 1).active_tasks ≤ (envC5.vmInfo w).active_tasks) :=
  newTask_firstPass_least_loaded envC5 sC5 7 99 1 (by decide)

/-! ## Claim C6: the initial partition -/

/-- Closed form of `init` on a fleet of at least
`MAX_RUNNING + STANDBY_SIZE = 16` machines. -/
theorem init_eq (env : Env) (total : Nat) (h : 16 ≤ total) :
    init env total =
      ({ vms := List.range 12, migrating := ∅,
         running_tier := List.range 12,
         standby_tier := List.range' 12 4,
         off_tier := List.range' 16 (total - 16) },
       (List.range 12).flatMap (fun i =>
         [Command.createVM i (vmTypeFor (env.machCPU i)) (env.machCPU i),
          Command.attach i i]) ++
       (List.range' 12 4).map (fun i => Command.setState i MachineState.S1) ++
       (List.range' 16 (total - 16)).map
         (fun i => Command.setState i MachineState.S5)) := by
  have h1 : min total MAX_RUNNING = 12 := by unfold MAX_RUNNING; omega
  have h2 : min total (12 + STANDBY_SIZE) = 16 := by unfold STANDBY_SIZE; omega
  simp only [init, h1, h2]

/-- Oracle for C6: a homogeneous X86 fleet. -/
def envC6 : Env where
  vmInfo := fun _ => ⟨CPUType.X86, VMType.LINUX, 0, 0⟩
  machInfo := fun _ => ⟨CPUType.X86, 8, 0, 0, 1⟩
  machCPU := fun _ => CPUType.X86
  taskCPU := fun _ => CPUType.X86
  taskVM := fun _ => VMType.LINUX
  taskSLA := fun _ => SLAClass.SLA0
  slaViolation := fun _ => false

/-- C6 counterexample: on a fleet of 20 X86 hosts, host 0 is put in the
running tier but `Init` never issues `Machine_SetState(0, S0)` — running
hosts are not "transitioned to S0", the code relies on them already being
powered on. (The tier sizes themselves do match: 12/4/4.) -/
theorem init_S0_cex :
    0 ∈ (init envC6 20).1.running_tier ∧
    Command.setState 0 MachineState.S0 ∉ (init envC6 20).2 ∧
    (init envC6 20).1.running_tier.length = 12 ∧
    (init envC6 20).1.standby_tier.length = 4 ∧
    (init envC6 20).1.off_tier.length = 4 ∧
    (init envC6 20).1.vms.length = 12 := by decide

/-- C6 amended: after `Init` on a fleet of at least 16 hosts, the first 12
hosts form the running tier (with NO S0 state command — they are assumed
already on), the next 4 hosts form the standby tier and are transitioned to
S1, all remaining hosts form the off tier and are transitioned to S5, and
exactly one VM exists per running host — VM `i` attached to host `i` — with
flavor AIX for POWER hosts and LINUX otherwise. -/
theorem init_partition (env : Env) (total : Nat) (h : 16 ≤ total) :
    (init env total).1.running_tier = List.range MAX_RUNNING ∧
    (init env total).1.standby_tier = List.range' MAX_RUNNING STANDBY_SIZE ∧
    (init env total).1.off_tier = List.range' 16 (total - 16) ∧
    (init env total).1.vms = List.range MAX_RUNNING ∧
    (init env total).1.migrating = ∅ ∧
    (∀ i, i < MAX_RUNNING →
      Command.createVM i (vmTypeFor (env.machCPU i)) (env.machCPU i) ∈
        (init env total).2 ∧
      Command.attach i i ∈ (init env total).2) ∧
    (∀ i, Command.setState i MachineState.S0 ∉ (init env total).2) ∧
    (∀ i, MAX_RUNNING ≤ i → i < 16 →
      Command.setState i MachineState.S1 ∈ (init env total).2) ∧
    (∀ i, 16 ≤ i → i < total →
      Command.setState i MachineState.S5 ∈ (init env total).2) := by
  rw [init_eq env total h]
  refine ⟨by simp [MAX_RUNNING], by simp [MAX_RUNNING, STANDBY_SIZE], rfl,
    by simp [MAX_RUNNING], rfl, ?_, ?_, ?_, ?_⟩
  · intro i hi
    constructor
    · refine List.mem_append_left _ (List.mem_append_left _ ?_)
      rw [List.mem_flatMap]
      exact ⟨i, by rw [List.mem_range]; simpa [MAX_RUNNING] using hi, by simp⟩
    · refine List.mem_append_left _ (List.mem_append_left _ ?_)
      rw [List.mem_flatMap]
      exact ⟨i, by rw [List.mem_range]; simpa [MAX_RUNNING] using hi, by simp⟩
  · intro i hmem
    simp [List.mem_flatMap] at hmem
  · intro i h12 h16
    refine List.mem_append_left _ (List.mem_append_right _ ?_)
    rw [List.mem_map]
    refine ⟨i, ?_, rfl⟩
    rw [List.mem_range'_1]
    unfold MAX_RUNNING at h12
    omega
  · intro i h16 htot
    refine List.mem_append_right _ ?_
    rw [List.mem_map]
    refine ⟨i, ?_, rfl⟩
    rw [List.mem_range'_1]
    omega

/-- Witness for C6's amended theorem: the 20-host X86 fleet. -/
theorem init_partition_witness :
    (init envC6 20).1.running_tier = List.range MAX_RUNNING ∧
    (init envC6 20).1.standby_tier = List.range' MAX_RUNNING STANDBY_SIZE ∧
    (init envC6 20).1.off_tier = List.range' 16 (20 - 16) ∧
    (init envC6 20).1.vms = List.range MAX_RUNNING ∧
    (init envC6 20).1.migrating = ∅ ∧
    (∀ i, i < MAX_RUNNING →
      Command.createVM i (vmTypeFor (envC6.machCPU i)) (envC6.machCPU i) ∈
        (init envC6 20).2 ∧
      Command.attach i i ∈ (init envC6 20).2) ∧
    (∀ i, Command.setState i MachineState.S0 ∉ (init envC6 20).2) ∧
    (∀ i, MAX_RUNNING ≤ i → i < 16 →
      Command.setState i MachineState.S1 ∈ (init envC6 20).2) ∧
    (∀ i, 16 ≤ i → i < 20 →
      Command.setState i MachineState.S5 ∈ (init envC6 20).2) :=
  init_partition envC6 20 (by decide)

/-! ## Claim C8: the Migrating set guards placement, shutdown, migration -/

/-- A VM selected by the first pass is eligible, hence not migrating. -/
theorem firstPass_some_elig (env : Env) (cpu : CPUType) (vt : VMType)
    (mig : Finset Nat) (l : List Nat) (v : Nat)
    (h : (firstPass env cpu vt mig l).1 = some v) :
    eligVM env cpu vt mig v := by
  unfold firstPass at h
  rcases scan_go env cpu vt mig l (none, UINT_MAX) v h with
    ⟨h1, -, -⟩ | ⟨-, -, -, helig, -⟩
  · exact absurd h1 (by simp)
  · exact helig

/-- C8: no task is ever added to a VM in the Migrating set (given that the
fresh handle `VM_Create` would return is not in the set), no migrating VM is
issued `VM_Shutdown` during `Shutdown`, and no VM already in the Migrating
set is ever submitted to `VM_Migrate` by the memory-warning handler. -/
theorem migration_guard (env : Env) (s : SchedState)
    (task_id fresh machine_id : Nat) (hf : fresh ∉ s.migrating) :
    (∀ v t p, Command.addTask v t p ∈ (newTask env s task_id fresh).2 →
      v ∉ s.migrating) ∧
    (∀ v, Command.shutdownVM v ∈ (shutdown s).2 → v ∉ s.migrating) ∧
    (∀ v d, Command.migrate v d ∈ (handleMemoryWarning env s machine_id).2 →
      v ∉ s.migrating) := by
  refine ⟨?_, ?_, ?_⟩
  · intro v t p hv
    rcases h1 : (firstPass env (env.taskCPU task_id) (env.taskVM task_id)
        s.migrating s.vms).1 with _ | v1
    · rcases h2 : secondPass env (env.taskCPU task_id) s.migrating s.vms with
        _ | v2
      · rcases h3 : standbyPick env (env.taskCPU task_id) s.standby_tier with
          _ | m1
        · simp only [newTask, h1, h2, h3] at hv
          split at hv
          next w heq =>
            simp at hv
            obtain ⟨rfl, -, -⟩ := hv
            have h5 := List.find?_some heq
            simpa using h5
          next heq =>
            simp at hv
        · simp only [newTask, h1, h2, h3] at hv
          split at hv
          · split at hv <;>
              · simp at hv
                obtain ⟨rfl, -, -⟩ := hv
                exact hf
          · simp at hv
            obtain ⟨rfl, -, -⟩ := hv
            exact hf
      · simp only [newTask, h1, h2, List.mem_singleton] at hv
        cases hv
        have h5 := List.find?_some h2
        simp only [decide_eq_true_eq] at h5
        exact h5.1
    · simp only [newTask, h1, List.mem_singleton] at hv
      cases hv
      exact (firstPass_some_elig env _ _ s.migrating s.vms _ h1).1
  · intro v hv
    simp only [shutdown, List.mem_map, List.mem_filter,
      decide_eq_true_eq] at hv
    obtain ⟨w, ⟨-, hw⟩, heq⟩ := hv
    cases heq
    exact hw
  · intro v d hv
    rcases hm : findMigration env s machine_id with _ | ⟨v1, d1⟩
    · simp [handleMemoryWarning, hm] at hv
    · simp only [handleMemoryWarning, hm, List.mem_singleton] at hv
      cases hv
      exact (findMigrationGo_some env s machine_id s.vms _ _ hm).2.1

/-- Witness for C8 at a concrete input. -/
theorem migration_guard_witness :
    (∀ v t p, Command.addTask v t p ∈ (newTask envC5 sC5 7 99).2 →
      v ∉ sC5.migrating) ∧
    (∀ v, Command.shutdownVM v ∈ (shutdown sC5).2 → v ∉ sC5.migrating) ∧
    (∀ v d, Command.migrate v d ∈ (handleMemoryWarning envC5 sC5 0).2 →
      v ∉ sC5.migrating) :=
  migration_guard envC5 sC5 7 99 0 (by decide)

end CloudSim
